import Mathlib

set_option maxRecDepth 40000

/-!
Verification of the submission-store / cloud-sync core of the repository.

The embedded code is `scripts/cloud_sync.py` (class `CloudSyncManager`), with the
submissions table schema taken from `flask_server/app.py` (`init_database`,
`save_submission`).  Conventions of the embedding:

* Database rows are values of `Submission`; the store (the `submissions` table)
  is a `List Submission`.
* Times (the SQLite `DATETIME` strings and `time.time()` values) are modelled as
  naturals with the usual order; `NULL`able columns are `Option`s.
* The network is an oracle `delivery : Nat → Nat → AttemptResult` giving, for each
  batch position and each attempt number, the classified outcome of the HTTP POST
  in `sync_to_cloud`.  A store-write failure of `mark_as_synced` (the `except`
  branch that only logs) is an oracle `markFail : Nat → Bool`.
* `md5hex` is a complete MD5 (RFC 1321) over byte lists, bytes and 32-bit words
  being naturals reduced mod `2 ^ 32`; `dumps_sorted` reproduces the output of
  Python's `json.dumps(data, sort_keys=True)` for the exact dictionary shape
  that `sync_to_cloud` builds, so that `generate_signature` is the function the
  source computes.
-/

/-! ### MD5 (`hashlib.md5(...).hexdigest()`) -/

def w32 (n : Nat) : Nat := n % 4294967296

def wadd (a b : Nat) : Nat := w32 (a + b)

def wnot (a : Nat) : Nat := 4294967295 - w32 a

def rotl32 (x s : Nat) : Nat := w32 (x <<< s) ||| (w32 x >>> (32 - s))

def md5K : List Nat :=
  [0xd76aa478, 0xe8c7b756, 0x242070db, 0xc1bdceee,
   0xf57c0faf, 0x4787c62a, 0xa8304613, 0xfd469501,
   0x698098d8, 0x8b44f7af, 0xffff5bb1, 0x895cd7be,
   0x6b901122, 0xfd987193, 0xa679438e, 0x49b40821,
   0xf61e2562, 0xc040b340, 0x265e5a51, 0xe9b6c7aa,
   0xd62f105d, 0x02441453, 0xd8a1e681, 0xe7d3fbc8,
   0x21e1cde6, 0xc33707d6, 0xf4d50d87, 0x455a14ed,
   0xa9e3e905, 0xfcefa3f8, 0x676f02d9, 0x8d2a4c8a,
   0xfffa3942, 0x8771f681, 0x6d9d6122, 0xfde5380c,
   0xa4beea44, 0x4bdecfa9, 0xf6bb4b60, 0xbebfbc70,
   0x289b7ec6, 0xeaa127fa, 0xd4ef3085, 0x04881d05,
   0xd9d4d039, 0xe6db99e5, 0x1fa27cf8, 0xc4ac5665,
   0xf4292244, 0x432aff97, 0xab9423a7, 0xfc93a039,
   0x655b59c3, 0x8f0ccc92, 0xffeff47d, 0x85845dd1,
   0x6fa87e4f, 0xfe2ce6e0, 0xa3014314, 0x4e0811a1,
   0xf7537e82, 0xbd3af235, 0x2ad7d2bb, 0xeb86d391]

def md5S : List Nat :=
  [7, 12, 17, 22, 7, 12, 17, 22, 7, 12, 17, 22, 7, 12, 17, 22,
   5, 9, 14, 20, 5, 9, 14, 20, 5, 9, 14, 20, 5, 9, 14, 20,
   4, 11, 16, 23, 4, 11, 16, 23, 4, 11, 16, 23, 4, 11, 16, 23,
   6, 10, 15, 21, 6, 10, 15, 21, 6, 10, 15, 21, 6, 10, 15, 21]

def md5F (i b c d : Nat) : Nat :=
  if i < 16 then (b &&& c) ||| (wnot b &&& d)
  else if i < 32 then (d &&& b) ||| (wnot d &&& c)
  else if i < 48 then b ^^^ c ^^^ d
  else c ^^^ (b ||| wnot d)

def md5gIndex (i : Nat) : Nat :=
  if i < 16 then i
  else if i < 32 then (5 * i + 1) % 16
  else if i < 48 then (3 * i + 5) % 16
  else (7 * i) % 16

def leWord (bs : List Nat) (j : Nat) : Nat :=
  bs.getD (4 * j) 0 + 256 * bs.getD (4 * j + 1) 0 +
    65536 * bs.getD (4 * j + 2) 0 + 16777216 * bs.getD (4 * j + 3) 0

def leBytes : Nat → Nat → List Nat
  | _, 0 => []
  | n, k + 1 => n % 256 :: leBytes (n / 256) k

def md5pad (msg : List Nat) : List Nat :=
  let len := msg.length
  let zeros := (119 - len % 64) % 64
  msg ++ [128] ++ List.replicate zeros 0 ++ leBytes (8 * len) 8

def md5step (block : List Nat) (i : Nat) : Nat × Nat × Nat × Nat → Nat × Nat × Nat × Nat
  | (a, b, c, d) =>
    let f := wadd (wadd (wadd (md5F i b c d) a) (md5K.getD i 0)) (leWord block (md5gIndex i))
    (d, wadd b (rotl32 f (md5S.getD i 0)), b, c)

def md5block (st : Nat × Nat × Nat × Nat) (block : List Nat) : Nat × Nat × Nat × Nat :=
  let r := (List.range 64).foldl (fun acc i => md5step block i acc) st
  (wadd st.1 r.1, wadd st.2.1 r.2.1, wadd st.2.2.1 r.2.2.1, wadd st.2.2.2 r.2.2.2)

def chunk64 : Nat → List Nat → List (List Nat)
  | 0, _ => []
  | _, [] => []
  | fuel + 1, bs => bs.take 64 :: chunk64 fuel (bs.drop 64)

def hexDigitChar (n : Nat) : Char :=
  if n < 10 then Char.ofNat (48 + n) else Char.ofNat (87 + n)

def hex2 (n : Nat) : String :=
  String.mk [hexDigitChar (n / 16 % 16), hexDigitChar (n % 16)]

/-- Lowercase hex MD5 digest of a byte list (`hashlib.md5(bytes).hexdigest()`).
Checked below against the RFC 1321 test vectors. -/
def md5hex (msg : List Nat) : String :=
  let padded := md5pad msg
  let st := (chunk64 padded.length padded).foldl md5block
    (0x67452301, 0xefcdab89, 0x98badcfe, 0x10325476)
  String.join
    ((leBytes st.1 4 ++ leBytes st.2.1 4 ++ leBytes st.2.2.1 4 ++ leBytes st.2.2.2 4).map hex2)

def utf8EncodeCharBytes (c : Char) : List Nat :=
  let n := c.toNat
  if n < 128 then [n]
  else if n < 2048 then [192 + n / 64, 128 + n % 64]
  else if n < 65536 then [224 + n / 4096, 128 + n / 64 % 64, 128 + n % 64]
  else [240 + n / 262144, 128 + n / 4096 % 64, 128 + n / 64 % 64, 128 + n % 64]

/-- `str.encode('utf-8')` as a byte list. -/
def utf8Bytes (s : String) : List Nat :=
  s.data.foldr (fun c acc => utf8EncodeCharBytes c ++ acc) []

/-! ### `json.dumps(·, sort_keys=True)` for the sync payload -/

def hex4 (n : Nat) : String :=
  String.mk [hexDigitChar (n / 4096 % 16), hexDigitChar (n / 256 % 16),
    hexDigitChar (n / 16 % 16), hexDigitChar (n % 16)]

/-- One character of a JSON string as CPython's `json.dumps` renders it with the
default `ensure_ascii=True`: short escapes, `\uXXXX` for anything outside
`0x20`–`0x7e`, surrogate pairs beyond the BMP. -/
def jsonEscapeChar (c : Char) : String :=
  if c = '"' then "\\\""
  else if c = '\\' then "\\\\"
  else if c.toNat = 8 then "\\b"
  else if c.toNat = 9 then "\\t"
  else if c.toNat = 10 then "\\n"
  else if c.toNat = 12 then "\\f"
  else if c.toNat = 13 then "\\r"
  else if 32 ≤ c.toNat ∧ c.toNat ≤ 126 then String.singleton c
  else if c.toNat < 65536 then "\\u" ++ hex4 c.toNat
  else
    let m := c.toNat - 65536
    "\\u" ++ hex4 (55296 + m / 1024) ++ "\\u" ++ hex4 (56320 + m % 1024)

def jsonStr (s : String) : String :=
  "\"" ++ String.join (s.data.map jsonEscapeChar) ++ "\""

/-- A saved file reference as `save_submission` (flask_server/app.py) records it. -/
structure FileInfo where
  original_name : String
  saved_name : String
  path : String
  size : Nat
deriving DecidableEq, Repr

/-- A row of the `submissions` table (`init_database` in flask_server/app.py). -/
structure Submission where
  id : Nat
  timestamp : Nat
  form_type : String
  data : List (String × String)
  files : List FileInfo
  ip_address : Option String
  synced_to_cloud : Bool
  sync_timestamp : Option Nat
deriving DecidableEq, Repr

/-- The JSON config file (`load_config` / `save_config` in cloud_sync.py). -/
structure SyncConfig where
  api_key : String
  api_secret : String
  sync_enabled : Bool
  last_sync_time : Option Nat
  sync_interval : Nat
  auto_sync : Bool
deriving DecidableEq, Repr

/-- `f['original_name'].split('.')[-1] if '.' in f['original_name'] else 'unknown'`. -/
def fileTypeOf (name : String) : String :=
  if name.contains '.' then (name.splitOn ".").getLastD "unknown" else "unknown"

/-- The `sync_data` dictionary built by `sync_to_cloud` (the `files` key is
present only when the submission has attachments). -/
structure SyncData where
  source : String
  submission_id : Nat
  sd_timestamp : Nat
  form_type : String
  data : List (String × String)
  ip_address : Option String
  hostname : String
  platform : String
  files : Option (List FileInfo)
deriving DecidableEq, Repr

def buildSyncData (hostname : String) (sub : Submission) : SyncData :=
  { source := "raspberry_pi"
    submission_id := sub.id
    sd_timestamp := sub.timestamp
    form_type := sub.form_type
    data := sub.data
    ip_address := sub.ip_address
    hostname := hostname
    platform := "raspberry_pi_4b"
    files := if sub.files.isEmpty then none else some sub.files }

def dumpOptStr : Option String → String
  | none => "null"
  | some s => jsonStr s

/-- `json.dumps` of a string-to-string dictionary with `sort_keys=True`
(Python sorts the keys by code point, which is Lean's `String` order). -/
def dumpStrPairs (kvs : List (String × String)) : String :=
  "\x7b" ++ String.intercalate ", "
    ((kvs.insertionSort (fun a b => a.1 ≤ b.1)).map
      (fun kv => jsonStr kv.1 ++ ": " ++ jsonStr kv.2)) ++ "\x7d"

def dumpFileMeta (f : FileInfo) : String :=
  "\x7b" ++ jsonStr "name" ++ ": " ++ jsonStr f.original_name ++ ", " ++
    jsonStr "size" ++ ": " ++ toString f.size ++ ", " ++
    jsonStr "type" ++ ": " ++ jsonStr (fileTypeOf f.original_name) ++ "\x7d"

def dumpDeviceInfo (hostname platform : String) : String :=
  "\x7b" ++ jsonStr "hostname" ++ ": " ++ jsonStr hostname ++ ", " ++
    jsonStr "platform" ++ ": " ++ jsonStr platform ++ "\x7d"

/-- `json.dumps(sync_data, sort_keys=True)`: the keys of the dictionary built in
`sync_to_cloud`, in sorted order (`data`, `device_info`, `files`?, `form_type`,
`ip_address`, `source`, `submission_id`, `timestamp`), with Python's default
separators. -/
def dumps_sorted (d : SyncData) : String :=
  "\x7b" ++ jsonStr "data" ++ ": " ++ dumpStrPairs d.data ++ ", " ++
    jsonStr "device_info" ++ ": " ++ dumpDeviceInfo d.hostname d.platform ++
    (match d.files with
      | none => ""
      | some fs =>
        ", " ++ jsonStr "files" ++ ": " ++
          "[" ++ String.intercalate ", " (fs.map dumpFileMeta) ++ "]") ++
    ", " ++ jsonStr "form_type" ++ ": " ++ jsonStr d.form_type ++
    ", " ++ jsonStr "ip_address" ++ ": " ++ dumpOptStr d.ip_address ++
    ", " ++ jsonStr "source" ++ ": " ++ jsonStr d.source ++
    ", " ++ jsonStr "submission_id" ++ ": " ++ toString d.submission_id ++
    ", " ++ jsonStr "timestamp" ++ ": " ++ toString d.sd_timestamp ++ "\x7d"

/-! ### cloud_sync.py -/

/-- `CONFIG['max_retries']`. -/
def CONFIG_max_retries : Nat := 3

/-- `CONFIG['retry_delay']` (seconds). -/
def CONFIG_retry_delay : Nat := 5

/-- `CONFIG['batch_size']`. -/
def CONFIG_batch_size : Nat := 10

/-- `generate_signature(self, data, timestamp)`: `None` when `api_secret` is
falsy, else the MD5 hex digest of
`json.dumps(data, sort_keys=True) + str(timestamp) + api_secret` (UTF-8). -/
def generate_signature (cfg : SyncConfig) (data : SyncData) (timestamp : Nat) :
    Option String :=
  if cfg.api_secret = "" then none
  else some (md5hex (utf8Bytes (dumps_sorted data ++ toString timestamp ++ cfg.api_secret)))

/-- Classified outcome of one HTTP POST attempt in `sync_to_cloud`:
`delivered` = HTTP 200 with `success: true`; `rejected` = HTTP 200 with
`success` falsy (remote declined, message logged); `httpError` = non-200 status;
`requestException` = `requests.exceptions.RequestException` (network error /
timeout). -/
inductive AttemptResult where
  | delivered
  | rejected (message : String)
  | httpError (status : Nat)
  | requestException
deriving DecidableEq, Repr

/-- Observable network-loop events of `sync_to_cloud`: an HTTP attempt, or a
`time.sleep(retry_delay)`. -/
inductive SyncEvent where
  | attempt (r : AttemptResult)
  | sleep (seconds : Nat)
deriving DecidableEq, Repr

/-- The `for attempt in range(max_retries)` loop of `sync_to_cloud`, from
attempt number `i`: returns the boolean the function returns together with the
trace of attempts and sleeps.  On `delivered` it returns `True`; on every other
outcome the loop falls through to the next attempt; `time.sleep(retry_delay)`
happens only in the `except RequestException` branch and only when
`attempt < max_retries - 1`; when attempts run out the function returns
`False`.  The loop counter is the pair (current attempt number `i`, remaining
attempts `fuel`); the Python loop from attempt `i` is `fuel = max_retries - i`,
and the whole loop is `sync_attempts oracle max_retries retry_delay 0
max_retries`. -/
def sync_attempts (oracle : Nat → AttemptResult) (maxRetries retryDelay : Nat) :
    Nat → Nat → Bool × List SyncEvent
  | _, 0 => (false, [])
  | i, fuel + 1 =>
    match oracle i with
    | .delivered => (true, [.attempt .delivered])
    | .rejected m =>
      let r := sync_attempts oracle maxRetries retryDelay (i + 1) fuel
      (r.1, .attempt (.rejected m) :: r.2)
    | .httpError s =>
      let r := sync_attempts oracle maxRetries retryDelay (i + 1) fuel
      (r.1, .attempt (.httpError s) :: r.2)
    | .requestException =>
      let r := sync_attempts oracle maxRetries retryDelay (i + 1) fuel
      if i < maxRetries - 1 then
        (r.1, .attempt .requestException :: .sleep retryDelay :: r.2)
      else
        (r.1, .attempt .requestException :: r.2)

/-- `sync_to_cloud(self, submission)`: skip (returning `False`, no network
traffic) when `api_key` or `api_secret` is falsy; build `sync_data`; compute the
signature for the current timestamp `now` and fail without network traffic when
it is `None`; otherwise run the attempt loop. -/
def sync_to_cloud (cfg : SyncConfig) (hostname : String)
    (oracle : Nat → AttemptResult) (now : Nat) (sub : Submission) :
    Bool × List SyncEvent :=
  if cfg.api_key = "" || cfg.api_secret = "" then (false, [])
  else
    let sd := buildSyncData hostname sub
    match generate_signature cfg sd now with
    | none => (false, [])
    | some _ => sync_attempts oracle CONFIG_max_retries CONFIG_retry_delay 0 CONFIG_max_retries

/-- Effect of `mark_as_synced`'s SQL UPDATE on one row: rows whose `id` matches
get `synced_to_cloud = TRUE, sync_timestamp = CURRENT_TIMESTAMP`
(unconditionally — the UPDATE has no guard on the current flag). -/
def markRow (now sid : Nat) (s : Submission) : Submission :=
  if s.id = sid then { s with synced_to_cloud := true, sync_timestamp := some now } else s

/-- `mark_as_synced(self, submission_id)` at current time `now`. -/
def mark_as_synced (now sid : Nat) (store : List Submission) : List Submission :=
  store.map (markRow now sid)

/-- `get_unsynced_submissions(self)`:
`SELECT ... WHERE synced_to_cloud = FALSE ORDER BY timestamp ASC LIMIT ?`
(the source binds `CONFIG['batch_size']` as the limit; the limit is a parameter
here). -/
def get_unsynced_submissions (limit : Nat) (store : List Submission) :
    List Submission :=
  (((store.filter fun s => !s.synced_to_cloud).insertionSort
      fun a b => a.timestamp ≤ b.timestamp).take limit)

/-- The world a sync cycle runs in: the ping result, `os.uname().nodename`, the
current time, and the per-batch-position oracles for delivery attempts and for
`mark_as_synced` store-write failures (which the source catches and logs). -/
structure Env where
  network_ok : Bool
  hostname : String
  now : Nat
  delivery : Nat → Nat → AttemptResult
  markFail : Nat → Bool

/-- Observable result of `sync_all_pending`: the store afterwards, the in-memory
config, the configs passed to `save_config`, whether the store was queried
(`get_unsynced_submissions` ran), the counts the source computes and logs, the
per-item network traces, and the function's return value. -/
structure CycleResult where
  store : List Submission
  config : SyncConfig
  savedConfigs : List SyncConfig
  storeQueried : Bool
  success_count : Nat
  total_count : Nat
  itemEvents : List (List SyncEvent)
  retVal : Bool
deriving DecidableEq, Repr

/-- The `for submission in submissions` loop of `sync_all_pending`: deliver each
item; on `True` call `mark_as_synced` (whose store write may fail silently) and
increment `success_count`; on `False` just log; always continue with the next
item.  Returns (store, success_count, per-item event traces). -/
def processBatch (cfg : SyncConfig) (env : Env) :
    Nat → List Submission → List Submission →
      List Submission × Nat × List (List SyncEvent)
  | _, store, [] => (store, 0, [])
  | pos, store, sub :: rest =>
    let r := sync_to_cloud cfg env.hostname (env.delivery pos) env.now sub
    if r.1 then
      let store2 := if env.markFail pos then store else mark_as_synced env.now sub.id store
      let rec2 := processBatch cfg env (pos + 1) store2 rest
      (rec2.1, rec2.2.1 + 1, r.2 :: rec2.2.2)
    else
      let rec2 := processBatch cfg env (pos + 1) store rest
      (rec2.1, rec2.2.1, r.2 :: rec2.2.2)

/-- `sync_all_pending(self)`: return `False` when the ping fails or
`sync_enabled` is falsy (nothing touched); query the unsynced batch; with an
empty batch return `True` at once (no config write); otherwise process the
batch, then set `last_sync_time` to now, save the config, and return
`success_count == total_count`. -/
def sync_all_pending (cfg : SyncConfig) (env : Env) (store : List Submission) :
    CycleResult :=
  if !env.network_ok then
    ⟨store, cfg, [], false, 0, 0, [], false⟩
  else if !cfg.sync_enabled then
    ⟨store, cfg, [], false, 0, 0, [], false⟩
  else
    let batch := get_unsynced_submissions CONFIG_batch_size store
    if batch.isEmpty then
      ⟨store, cfg, [], true, 0, 0, [], true⟩
    else
      let pr := processBatch cfg env 0 store batch
      let cfg2 := { cfg with last_sync_time := some env.now }
      ⟨pr.1, cfg2, [cfg2], true, pr.2.1, batch.length, pr.2.2, pr.2.1 == batch.length⟩

/-! ### Specification-side helpers -/

/-- Per-position delivery results of a batch (what `sync_to_cloud` returns for
each item when processing starts at position `pos`). -/
def succFlags (cfg : SyncConfig) (env : Env) : Nat → List Submission → List Bool
  | _, [] => []
  | pos, sub :: rest =>
    (sync_to_cloud cfg env.hostname (env.delivery pos) env.now sub).1 ::
      succFlags cfg env (pos + 1) rest

/-- Ids of batch items that were delivered and whose `mark_as_synced` store
write went through. -/
def markedIds (cfg : SyncConfig) (env : Env) : Nat → List Submission → List Nat
  | _, [] => []
  | pos, sub :: rest =>
    if (sync_to_cloud cfg env.hostname (env.delivery pos) env.now sub).1
        && !env.markFail pos then
      sub.id :: markedIds cfg env (pos + 1) rest
    else markedIds cfg env (pos + 1) rest

/-- Row transformer applied by a sequence of `mark_as_synced` calls for the ids
in `ids`, all at time `now`. -/
def updateIfIn (ids : List Nat) (now : Nat) (s : Submission) : Submission :=
  if s.id ∈ ids then { s with synced_to_cloud := true, sync_timestamp := some now } else s

/-- Every `sleep` in an attempt trace is the fixed `retry_delay` and directly
follows a network-exception attempt. -/
def sleepsFollowTransient (delay : Nat) : List SyncEvent → Bool
  | [] => true
  | .attempt .requestException :: .sleep d :: rest =>
      d == delay && sleepsFollowTransient delay rest
  | .sleep _ :: _ => false
  | _ :: rest => sleepsFollowTransient delay rest

/-- A trace never starts with a sleep (used to reason about trace
concatenation in the retry loop). -/
def headNotSleep : List SyncEvent → Bool
  | .sleep _ :: _ => false
  | _ => true

/-! ### Concrete inputs used by counterexamples and witnesses -/

/-- A fresh (unsynced) submission row with the given id and creation time. -/
def mkSub (i ts : Nat) : Submission :=
  { id := i, timestamp := ts, form_type := "survey", data := [("field1", "value")],
    files := [], ip_address := some "192.168.1.2", synced_to_cloud := false,
    sync_timestamp := none }

/-- A row that is already synced (flag set, `sync_timestamp` 10). -/
def subC1 : Submission :=
  { id := 1, timestamp := 0, form_type := "survey", data := [], files := [],
    ip_address := none, synced_to_cloud := true, sync_timestamp := some 10 }

/-- Configured and enabled sync config. -/
def cfgOn : SyncConfig :=
  { api_key := "key", api_secret := "secret", sync_enabled := true,
    last_sync_time := none, sync_interval := 300, auto_sync := true }

/-- Same credentials, sync disabled. -/
def cfgOff : SyncConfig :=
  { api_key := "key", api_secret := "secret", sync_enabled := false,
    last_sync_time := some 5, sync_interval := 300, auto_sync := true }

/-- Enabled, but the shared secret is empty. -/
def cfgNoSecret : SyncConfig :=
  { api_key := "key", api_secret := "", sync_enabled := true,
    last_sync_time := none, sync_interval := 300, auto_sync := true }

/-- Same secret as `cfgOn`, different `api_key`. -/
def cfgOtherKey : SyncConfig :=
  { api_key := "otherkey", api_secret := "secret", sync_enabled := true,
    last_sync_time := none, sync_interval := 300, auto_sync := true }

/-- Remote rejects the first attempt (HTTP 200, `success` falsy) and would
acknowledge the second. -/
def oracleC2 : Nat → AttemptResult :=
  fun i => if i = 0 then .rejected "invalid signature" else .delivered

/-- Network up, every delivery acknowledged, store writes fine. -/
def envAllOk : Env :=
  { network_ok := true, hostname := "raspberrypi", now := 99,
    delivery := fun _ _ => .delivered, markFail := fun _ => false }

/-- Network up, the remote rejects every attempt of every item. -/
def envReject : Env :=
  { network_ok := true, hostname := "raspberrypi", now := 42,
    delivery := fun _ _ => .rejected "bad signature", markFail := fun _ => false }

/-- Network up, the item at batch position 3 is rejected on every attempt,
every other item is acknowledged at once. -/
def envOneReject : Env :=
  { network_ok := true, hostname := "raspberrypi", now := 100,
    delivery := fun pos _ => if pos = 3 then .rejected "declined" else .delivered,
    markFail := fun _ => false }

/-- Network up, the item at batch position 0 is acknowledged and position 1 is
rejected on every attempt. -/
def envC9a : Env :=
  { network_ok := true, hostname := "raspberrypi", now := 50,
    delivery := fun pos _ => if pos = 0 then .delivered else .rejected "declined",
    markFail := fun _ => false }

/-- Network up, every delivery acknowledged, but the `mark_as_synced` store
write for batch position 0 fails (caught and only logged by the source). -/
def envMarkFail : Env :=
  { network_ok := true, hostname := "raspberrypi", now := 77,
    delivery := fun _ _ => .delivered, markFail := fun pos => pos == 0 }

def storeOne : List Submission := [mkSub 1 1]

def storeTwo : List Submission := [mkSub 1 1, mkSub 2 2]

def storeTen : List Submission := (List.range 10).map fun i => mkSub (i + 1) (i + 1)

/-- A sample payload for signature determinism. -/
def dW : SyncData := buildSyncData "raspberrypi" (mkSub 1 1)

theorem updateIfIn_nil (now : Nat) (s : Submission) : updateIfIn [] now s = s := by
  simp [updateIfIn]

theorem updateIfIn_id (ids : List Nat) (now : Nat) (s : Submission) :
    (updateIfIn ids now s).id = s.id := by
  unfold updateIfIn; split <;> rfl

theorem markRow_eq_updateIfIn (now sid : Nat) (s : Submission) :
    markRow now sid s = updateIfIn [sid] now s := by
  simp [markRow, updateIfIn]

theorem updateIfIn_cons (a : Nat) (ids : List Nat) (now : Nat) (s : Submission) :
    updateIfIn ids now (updateIfIn [a] now s) = updateIfIn (a :: ids) now s := by
  by_cases h1 : s.id = a <;> by_cases h2 : s.id ∈ ids <;>
    simp [updateIfIn, h1, h2]

theorem mark_as_synced_eq_map (now sid : Nat) (store : List Submission) :
    mark_as_synced now sid store = store.map (updateIfIn [sid] now) := by
  unfold mark_as_synced
  exact List.map_congr_left fun s _ => markRow_eq_updateIfIn now sid s

theorem processBatch_store (cfg : SyncConfig) (env : Env) :
    ∀ (batch : List Submission) (pos : Nat) (store : List Submission),
      (processBatch cfg env pos store batch).1 =
        store.map (updateIfIn (markedIds cfg env pos batch) env.now) := by
  intro batch
  induction batch with
  | nil =>
    intro pos store
    simp only [processBatch, markedIds]
    exact ((List.map_congr_left fun s _ => updateIfIn_nil env.now s).trans
      (List.map_id store)).symm
  | cons sub rest ih =>
    intro pos store
    by_cases hf : (sync_to_cloud cfg env.hostname (env.delivery pos) env.now sub).1 = true
    · by_cases hm : env.markFail pos = true
      · simp [processBatch, markedIds, hf, hm, ih (pos + 1)]
      · rw [Bool.not_eq_true] at hm
        simp only [processBatch, markedIds]
        rw [hf, hm]
        simp only [if_true, Bool.not_false, Bool.true_and, Bool.false_eq_true, if_false]
        rw [ih (pos + 1), mark_as_synced_eq_map, List.map_map]
        exact List.map_congr_left fun s _ => updateIfIn_cons sub.id _ env.now s
    · rw [Bool.not_eq_true] at hf
      simp [processBatch, markedIds, hf, ih (pos + 1)]

theorem processBatch_success (cfg : SyncConfig) (env : Env) :
    ∀ (batch : List Submission) (pos : Nat) (store : List Submission),
      (processBatch cfg env pos store batch).2.1 =
        (succFlags cfg env pos batch).count true := by
  intro batch
  induction batch with
  | nil => intro pos store; simp [processBatch, succFlags]
  | cons sub rest ih =>
    intro pos store
    by_cases hf : (sync_to_cloud cfg env.hostname (env.delivery pos) env.now sub).1 = true
    · simp only [processBatch, succFlags, hf, if_true, List.count_cons, if_true,
        beq_self_eq_true]
      rw [ih (pos + 1)]
    · rw [Bool.not_eq_true] at hf
      simp only [processBatch, succFlags, hf, Bool.false_eq_true, if_false,
        List.count_cons]
      rw [ih (pos + 1)]
      simp

theorem processBatch_events_length (cfg : SyncConfig) (env : Env) :
    ∀ (batch : List Submission) (pos : Nat) (store : List Submission),
      (processBatch cfg env pos store batch).2.2.length = batch.length := by
  intro batch
  induction batch with
  | nil => intro pos store; simp [processBatch]
  | cons sub rest ih =>
    intro pos store
    by_cases hf : (sync_to_cloud cfg env.hostname (env.delivery pos) env.now sub).1 = true
    · simp only [processBatch, hf, if_true, List.length_cons]
      rw [ih (pos + 1)]
    · rw [Bool.not_eq_true] at hf
      simp only [processBatch, hf, Bool.false_eq_true, if_false, List.length_cons]
      rw [ih (pos + 1)]

theorem succFlags_length (cfg : SyncConfig) (env : Env) :
    ∀ (batch : List Submission) (pos : Nat),
      (succFlags cfg env pos batch).length = batch.length := by
  intro batch
  induction batch with
  | nil => intro pos; rfl
  | cons sub rest ih => intro pos; simp [succFlags, ih (pos + 1)]

theorem mem_markedIds (cfg : SyncConfig) (env : Env) :
    ∀ (batch : List Submission) (pos : Nat) (sid : Nat),
      sid ∈ markedIds cfg env pos batch →
        ∃ i, ∃ h : i < batch.length,
          (batch.get ⟨i, h⟩).id = sid ∧
          (sync_to_cloud cfg env.hostname (env.delivery (pos + i)) env.now
            (batch.get ⟨i, h⟩)).1 = true ∧
          env.markFail (pos + i) = false := by
  intro batch
  induction batch with
  | nil => intro pos sid h; simp [markedIds] at h
  | cons sub rest ih =>
    intro pos sid h
    unfold markedIds at h
    split at h
    · rename_i hcond
      rcases List.mem_cons.mp h with h1 | h1
      · refine ⟨0, Nat.succ_pos _, ?_, ?_, ?_⟩
        · simpa using h1.symm
        · rw [Bool.and_eq_true] at hcond
          simpa using hcond.1
        · rw [Bool.and_eq_true] at hcond
          simpa using hcond.2
      · rcases ih (pos + 1) sid h1 with ⟨i, hi, hid, hfl, hmf⟩
        refine ⟨i + 1, Nat.succ_lt_succ hi, ?_, ?_, ?_⟩
        · simpa using hid
        · have : pos + (i + 1) = pos + 1 + i := by omega
          rw [this]; simpa using hfl
        · have : pos + (i + 1) = pos + 1 + i := by omega
          rw [this]; exact hmf
    · rcases ih (pos + 1) sid h with ⟨i, hi, hid, hfl, hmf⟩
      refine ⟨i + 1, Nat.succ_lt_succ hi, ?_, ?_, ?_⟩
      · simpa using hid
      · have : pos + (i + 1) = pos + 1 + i := by omega
        rw [this]; simpa using hfl
      · have : pos + (i + 1) = pos + 1 + i := by omega
        rw [this]; exact hmf

theorem succFlags_true_mem (cfg : SyncConfig) (env : Env) :
    ∀ (batch : List Submission) (pos i : Nat) (h : i < batch.length),
      (sync_to_cloud cfg env.hostname (env.delivery (pos + i)) env.now
        (batch.get ⟨i, h⟩)).1 = true →
      true ∈ succFlags cfg env pos batch := by
  intro batch
  induction batch with
  | nil => intro pos i h; exact absurd h (by simp)
  | cons sub rest ih =>
    intro pos i h hfl
    cases i with
    | zero =>
      simp only [succFlags, List.mem_cons]
      left
      simpa using hfl.symm
    | succ j =>
      simp only [succFlags, List.mem_cons]
      right
      refine ih (pos + 1) j (Nat.lt_of_succ_lt_succ h) ?_
      have : pos + 1 + j = pos + (j + 1) := by omega
      rw [this]
      simpa using hfl

theorem mem_get_unsynced {s : Submission} {limit : Nat} {store : List Submission}
    (h : s ∈ get_unsynced_submissions limit store) :
    s ∈ store ∧ s.synced_to_cloud = false := by
  unfold get_unsynced_submissions at h
  have h1 := List.mem_of_mem_take h
  rw [List.mem_insertionSort] at h1
  have h2 := List.mem_filter.mp h1
  refine ⟨h2.1, ?_⟩
  simpa using h2.2

theorem get_unsynced_ids_nodup {store : List Submission} (limit : Nat)
    (h : (store.map Submission.id).Nodup) :
    ((get_unsynced_submissions limit store).map Submission.id).Nodup := by
  unfold get_unsynced_submissions
  have hf : ((store.filter fun s => !s.synced_to_cloud).map Submission.id).Nodup :=
    ((List.filter_sublist store).map Submission.id).nodup h
  have hperm := (List.perm_insertionSort
    (fun a b => a.timestamp ≤ b.timestamp)
    (store.filter fun s => !s.synced_to_cloud)).map Submission.id
  have hm := hperm.nodup_iff.mpr hf
  exact ((List.take_sublist limit _).map Submission.id).nodup hm

theorem sync_all_pending_run (cfg : SyncConfig) (env : Env) (store : List Submission)
    (hnet : env.network_ok = true) (hen : cfg.sync_enabled = true)
    (hne : get_unsynced_submissions CONFIG_batch_size store ≠ []) :
    sync_all_pending cfg env store =
      ⟨(processBatch cfg env 0 store (get_unsynced_submissions CONFIG_batch_size store)).1,
        { cfg with last_sync_time := some env.now },
        [{ cfg with last_sync_time := some env.now }], true,
        (processBatch cfg env 0 store (get_unsynced_submissions CONFIG_batch_size store)).2.1,
        (get_unsynced_submissions CONFIG_batch_size store).length,
        (processBatch cfg env 0 store (get_unsynced_submissions CONFIG_batch_size store)).2.2,
        (processBatch cfg env 0 store
            (get_unsynced_submissions CONFIG_batch_size store)).2.1 ==
          (get_unsynced_submissions CONFIG_batch_size store).length⟩ := by
  unfold sync_all_pending
  rw [hnet, hen]
  simp only [Bool.not_true, Bool.false_eq_true, if_false]
  rw [if_neg]
  simp only [Bool.not_eq_true, List.isEmpty_eq_false]
  exact hne

theorem sync_to_cloud_no_secret (cfg : SyncConfig) (hostname : String)
    (oracle : Nat → AttemptResult) (now : Nat) (sub : Submission)
    (h : cfg.api_secret = "") :
    sync_to_cloud cfg hostname oracle now sub = (false, []) := by
  simp [sync_to_cloud, h, generate_signature]

theorem processBatch_no_secret (cfg : SyncConfig) (env : Env)
    (h : cfg.api_secret = "") :
    ∀ (batch : List Submission) (pos : Nat) (store : List Submission),
      processBatch cfg env pos store batch =
        (store, 0, batch.map fun _ => ([] : List SyncEvent)) := by
  intro batch
  induction batch with
  | nil => intro pos store; rfl
  | cons sub rest ih =>
    intro pos store
    simp only [processBatch, sync_to_cloud_no_secret cfg env.hostname _ env.now sub h,
      Bool.false_eq_true, if_false, ih (pos + 1), List.map_cons]

/-! ### Sanity checks of the hash and signature pipeline -/

theorem md5hex_empty :
    md5hex (utf8Bytes "") = "d41d8cd98f00b204e9800998ecf8427e" := by decide

theorem md5hex_abc :
    md5hex (utf8Bytes "abc") = "900150983cd24fb0d6963f7d28e17f72" := by decide

/-- End-to-end: for `mkSub 1 1` and timestamp 5, the embedding computes the very
digest CPython's `json.dumps(sync_data, sort_keys=True)` + `hashlib.md5`
produce. -/
theorem generate_signature_crosscheck :
    generate_signature cfgOn (buildSyncData "raspberrypi" (mkSub 1 1)) 5 =
      some "dd88bfda00dfb928ab139a62384e5c39" := by decide

/-! ### Retry-loop lemmas -/

theorem sync_attempts_step_not_delivered (oracle : Nat → AttemptResult)
    (maxR delay i fuel : Nat) (ho : oracle i ≠ .delivered) :
    (sync_attempts oracle maxR delay i (fuel + 1)).1 =
      (sync_attempts oracle maxR delay (i + 1) fuel).1 := by
  cases h : oracle i with
  | delivered => exact absurd h ho
  | rejected m => simp only [sync_attempts, h]
  | httpError st => simp only [sync_attempts, h]
  | requestException => simp only [sync_attempts, h]; split <;> rfl

theorem sync_attempts_true_iff (oracle : Nat → AttemptResult) (maxR delay : Nat) :
    ∀ (fuel i : Nat),
      (sync_attempts oracle maxR delay i fuel).1 = true ↔
        ∃ j, i ≤ j ∧ j < i + fuel ∧ oracle j = .delivered := by
  intro fuel
  induction fuel with
  | zero =>
    intro i
    constructor
    · intro h; exact absurd h (by simp [sync_attempts])
    · rintro ⟨j, h1, h2, _⟩; omega
  | succ fuel ih =>
    intro i
    by_cases ho : oracle i = .delivered
    · constructor
      · intro _; exact ⟨i, Nat.le_refl i, by omega, ho⟩
      · intro _; simp only [sync_attempts, ho]
    · rw [sync_attempts_step_not_delivered oracle maxR delay i fuel ho, ih (i + 1)]
      constructor
      · rintro ⟨j, h1, h2, h3⟩; exact ⟨j, by omega, by omega, h3⟩
      · rintro ⟨j, h1, h2, h3⟩
        refine ⟨j, ?_, by omega, h3⟩
        rcases Nat.eq_or_lt_of_le h1 with h4 | h4
        · exact absurd (h4 ▸ h3) ho
        · omega

theorem sync_attempts_trace_ok (oracle : Nat → AttemptResult) (maxR delay : Nat) :
    ∀ (fuel i : Nat),
      sleepsFollowTransient delay (sync_attempts oracle maxR delay i fuel).2 = true ∧
        headNotSleep (sync_attempts oracle maxR delay i fuel).2 = true := by
  intro fuel
  induction fuel with
  | zero => intro i; exact ⟨rfl, rfl⟩
  | succ fuel ih =>
    intro i
    cases ho : oracle i with
    | delivered => simp only [sync_attempts, ho]; exact ⟨rfl, rfl⟩
    | rejected m =>
      simp only [sync_attempts, ho]
      exact ⟨(ih (i + 1)).1, rfl⟩
    | httpError st =>
      simp only [sync_attempts, ho]
      exact ⟨(ih (i + 1)).1, rfl⟩
    | requestException =>
      simp only [sync_attempts, ho]
      obtain ⟨h1, h2⟩ := ih (i + 1)
      split
      · refine ⟨?_, rfl⟩
        show (_ && _) = true
        rw [Bool.and_eq_true]
        exact ⟨beq_self_eq_true delay, h1⟩
      · rcases htr : (sync_attempts oracle maxR delay (i + 1) fuel).2 with _ | ⟨e, rest⟩
        · exact ⟨rfl, rfl⟩
        · cases e with
          | attempt a =>
            rw [htr] at h1
            exact ⟨h1, rfl⟩
          | sleep d =>
            rw [htr] at h2
            exact absurd h2 (by simp [headNotSleep])

/-! ### Claims -/

/-- Claim C1, counterexample.  `mark_as_synced` is not a no-op on an
already-synced id: `subC1` is already synced with `sync_timestamp = some 10`,
and marking it again at time 20 changes the row (its `sync_timestamp` becomes
`some 20`), so the state after a second application differs from the state
after the first. -/
theorem C1_counterexample : mark_as_synced 20 1 [subC1] ≠ [subC1] := by decide

/-- Claim C1, amended.  Re-marking overwrites rather than preserves: applying
`MarkSynced(id)` at time `t1` and then again at time `t2` yields exactly the
state of a single application at `t2` — the flag transition is idempotent (and
re-marking at the same time is a strict no-op), but `synced_at`
(`sync_timestamp`) is set to the current time on every application, not only
the first. -/
theorem C1_remark_overwrites (t1 t2 sid : Nat) (store : List Submission) :
    mark_as_synced t2 sid (mark_as_synced t1 sid store) = mark_as_synced t2 sid store := by
  unfold mark_as_synced
  rw [List.map_map]
  refine List.map_congr_left fun s _ => ?_
  by_cases h : s.id = sid <;> simp [markRow, h, Function.comp]

/-- Claim C2, counterexample.  A `Rejected` outcome (HTTP 200 with `success`
falsy) is retried within the same delivery: with `oracleC2` the first attempt
is rejected, yet the loop makes a second attempt which delivers, returning
`True` — and no `retry_delay` wait separates the two attempts. -/
theorem C2_counterexample :
    sync_attempts oracleC2 CONFIG_max_retries CONFIG_retry_delay 0 CONFIG_max_retries =
      (true, [.attempt (.rejected "invalid signature"), .attempt .delivered]) := by decide

/-- Claim C2, amended.  Every failed attempt — `Rejected`, HTTP error, and
network exception alike — falls through to the next attempt: the delivery loop
(`range(max_retries)` in `sync_to_cloud`) returns `True` exactly when some
attempt within the window is `Delivered`; and a `retry_delay` sleep appears in
the trace only immediately after a network-exception attempt (never after a
rejection or HTTP error, and never after the final attempt). -/
theorem C2_all_failures_retried (oracle : Nat → AttemptResult) (maxR delay : Nat) :
    ((sync_attempts oracle maxR delay 0 maxR).1 = true ↔
      ∃ j, j < maxR ∧ oracle j = .delivered) ∧
    sleepsFollowTransient delay (sync_attempts oracle maxR delay 0 maxR).2 = true := by
  constructor
  · rw [sync_attempts_true_iff oracle maxR delay maxR 0]
    constructor
    · rintro ⟨j, _, h2, h3⟩; exact ⟨j, by omega, h3⟩
    · rintro ⟨j, h1, h2⟩; exact ⟨j, by omega, by omega, h2⟩
  · exact (sync_attempts_trace_ok oracle maxR delay maxR 0).1

/-- Claim C3, counterexample.  A cycle that passes the connectivity and
`sync_enabled` checks but selects zero unsynced submissions returns `True`
immediately: `last_sync_time` is not set (it stays `none` instead of becoming
`some 99`) and no configuration write happens. -/
theorem C3_counterexample :
    (sync_all_pending cfgOn envAllOk []).retVal = true ∧
    (sync_all_pending cfgOn envAllOk []).config.last_sync_time = none ∧
    (sync_all_pending cfgOn envAllOk []).savedConfigs = [] := by decide

/-- Claim C3, amended.  Only when the selected batch is nonempty does the cycle
set `last_sync_time = now` and re-persist the configuration (exactly one
`save_config` call, with that config) — and then it does so regardless of how
many items succeeded or failed (the delivery and mark oracles in `env` are
arbitrary); with zero selected submissions the cycle returns success without
touching `last_sync_time`. -/
theorem C3_last_sync_time_nonempty_batch (cfg : SyncConfig) (env : Env)
    (store : List Submission)
    (hnet : env.network_ok = true) (hen : cfg.sync_enabled = true)
    (hne : get_unsynced_submissions CONFIG_batch_size store ≠ []) :
    (sync_all_pending cfg env store).config.last_sync_time = some env.now ∧
    (sync_all_pending cfg env store).savedConfigs =
      [(sync_all_pending cfg env store).config] := by
  rw [sync_all_pending_run cfg env store hnet hen hne]
  exact ⟨rfl, rfl⟩

/-- Claim C3, witness for the amended theorem: one unsynced submission, every
delivery attempt rejected — the cycle still sets `last_sync_time` to the
current time 42 and saves the config once. -/
theorem C3_witness :
    (sync_all_pending cfgOn envReject storeOne).config.last_sync_time = some 42 ∧
    (sync_all_pending cfgOn envReject storeOne).savedConfigs =
      [(sync_all_pending cfgOn envReject storeOne).config] :=
  ⟨(C3_last_sync_time_nonempty_batch cfgOn envReject storeOne rfl rfl
      (by decide)).1.trans (by decide),
   (C3_last_sync_time_nonempty_batch cfgOn envReject storeOne rfl rfl (by decide)).2⟩

/-- Claim C4, confirmed.  If the connectivity check fails or `sync_enabled` is
false, the cycle mutates nothing: the store is returned unchanged, the config is
unchanged, no `save_config` call happens, the store is not even queried, and the
function returns `False`. -/
theorem C4_skipped_cycle_no_mutation (cfg : SyncConfig) (env : Env)
    (store : List Submission)
    (h : env.network_ok = false ∨ cfg.sync_enabled = false) :
    sync_all_pending cfg env store = ⟨store, cfg, [], false, 0, 0, [], false⟩ := by
  unfold sync_all_pending
  rcases h with h | h
  · rw [h]
    rfl
  · cases hn : env.network_ok
    · rfl
    · rw [h]
      rfl

/-- Claim C4, witness: with `sync_enabled = false` (and the network up), a cycle
over one unsynced submission changes nothing. -/
theorem C4_witness :
    cfgOff.sync_enabled = false ∧
    sync_all_pending cfgOff envAllOk storeOne =
      ⟨storeOne, cfgOff, [], false, 0, 0, [], false⟩ :=
  ⟨rfl, C4_skipped_cycle_no_mutation cfgOff envAllOk storeOne (Or.inr rfl)⟩

/-- Claim C5, counterexample.  With an empty secret (but `sync_enabled` and the
network up), the cycle does *not* abort before touching the store: it queries
the unsynced batch and even re-persists the configuration. -/
theorem C5_counterexample :
    (sync_all_pending cfgNoSecret envAllOk storeOne).storeQueried = true ∧
    (sync_all_pending cfgNoSecret envAllOk storeOne).savedConfigs ≠ [] := by decide

/-- Claim C5, amended.  With an empty secret, `generate_signature` returns
`None` and a sync cycle makes no network call (every per-item trace is empty)
and marks nothing (the store is returned unchanged, zero successes); but the
cycle does not abort early — it still reads the unsynced batch, iterates it, and
(when the batch is nonempty) persists `last_sync_time`. -/
theorem C5_empty_secret (cfg : SyncConfig) (env : Env) (store : List Submission)
    (h : cfg.api_secret = "") :
    (∀ d t, generate_signature cfg d t = none) ∧
    (sync_all_pending cfg env store).store = store ∧
    (sync_all_pending cfg env store).success_count = 0 ∧
    (∀ ev ∈ (sync_all_pending cfg env store).itemEvents, ev = []) := by
  refine ⟨fun d t => by simp [generate_signature, h], ?_⟩
  unfold sync_all_pending
  by_cases hnet : env.network_ok = true
  · rw [hnet]
    by_cases hen : cfg.sync_enabled = true
    · rw [hen]
      simp only [Bool.not_true, Bool.false_eq_true, if_false]
      by_cases hne : (get_unsynced_submissions CONFIG_batch_size store).isEmpty = true
      · rw [if_pos hne]
        exact ⟨rfl, rfl, by simp⟩
      · rw [if_neg hne]
        refine ⟨?_, ?_, ?_⟩ <;>
          simp [processBatch_no_secret cfg env h]
    · rw [Bool.not_eq_true] at hen
      rw [hen]
      exact ⟨rfl, rfl, by simp⟩
  · rw [Bool.not_eq_true] at hnet
    rw [hnet]
    exact ⟨rfl, rfl, by simp⟩

/-- Claim C5, witness: empty secret, one unsynced submission — `Sign` gives
`None`, the cycle delivers nothing and leaves the store unchanged. -/
theorem C5_witness :
    cfgNoSecret.api_secret = "" ∧
    generate_signature cfgNoSecret dW 99 = none ∧
    (sync_all_pending cfgNoSecret envAllOk storeOne).success_count = 0 ∧
    (sync_all_pending cfgNoSecret envAllOk storeOne).store = storeOne :=
  ⟨rfl, (C5_empty_secret cfgNoSecret envAllOk storeOne rfl).1 dW 99,
   (C5_empty_secret cfgNoSecret envAllOk storeOne rfl).2.2.1,
   (C5_empty_secret cfgNoSecret envAllOk storeOne rfl).2.1⟩

/-- Claim C7, confirmed.  For every store state and every limit, the
unsynced-batch selection returns at most `limit` rows, only rows with the
synced flag unset, ordered by ascending creation timestamp. -/
theorem C7_list_unsynced (store : List Submission) (limit : Nat) :
    (get_unsynced_submissions limit store).length ≤ limit ∧
    (∀ s ∈ get_unsynced_submissions limit store, s.synced_to_cloud = false) ∧
    List.Pairwise (fun a b => a.timestamp ≤ b.timestamp)
      (get_unsynced_submissions limit store) := by
  refine ⟨?_, fun s hs => (mem_get_unsynced hs).2, ?_⟩
  · unfold get_unsynced_submissions
    exact List.length_take_le limit _
  · unfold get_unsynced_submissions
    refine List.Pairwise.sublist (List.take_sublist limit _) ?_
    haveI h1 : IsTotal Submission (fun a b => a.timestamp ≤ b.timestamp) :=
      ⟨fun a b => Nat.le_total a.timestamp b.timestamp⟩
    haveI h2 : IsTrans Submission (fun a b => a.timestamp ≤ b.timestamp) :=
      ⟨fun a b c hab hbc => Nat.le_trans hab hbc⟩
    exact List.sorted_insertionSort _ _

/-- Claim C8, confirmed.  The signature is a deterministic function of
(payload, secret, timestamp): two calls on manager states with the same secret
(everything else may differ) yield identical signatures. -/
theorem C8_signature_deterministic (cfg1 cfg2 : SyncConfig) (d : SyncData) (t : Nat)
    (h : cfg1.api_secret = cfg2.api_secret) :
    generate_signature cfg1 d t = generate_signature cfg2 d t := by
  unfold generate_signature
  rw [h]

/-- Claim C8, witness: two configs with the same secret but different
`api_key`s sign the sample payload identically. -/
theorem C8_witness :
    cfgOn.api_key ≠ cfgOtherKey.api_key ∧
    cfgOn.api_secret = cfgOtherKey.api_secret ∧
    generate_signature cfgOn dW 7 = generate_signature cfgOtherKey dW 7 :=
  ⟨by decide, rfl, C8_signature_deterministic cfgOn cfgOtherKey dW 7 rfl⟩

/-- Claim C6, confirmed.  Within a cycle (ids unique, as the `id` column is the
table's primary key), an item whose delivery fails — rejection or exhausted
retries, i.e. `sync_to_cloud` returns `False` — is not marked: every row with
its id is still unsynced afterwards; it is not counted (`success_count` counts
exactly the delivered items), and the batch is not aborted (`total_count` and
the per-item traces still cover the whole batch). -/
theorem C6_failure_isolated (cfg : SyncConfig) (env : Env) (store : List Submission)
    (i : Nat)
    (hnet : env.network_ok = true) (hen : cfg.sync_enabled = true)
    (hnds : (store.map Submission.id).Nodup)
    (hi : i < (get_unsynced_submissions CONFIG_batch_size store).length)
    (hfail : (sync_to_cloud cfg env.hostname (env.delivery i) env.now
      ((get_unsynced_submissions CONFIG_batch_size store).get ⟨i, hi⟩)).1 = false) :
    (sync_all_pending cfg env store).total_count =
      (get_unsynced_submissions CONFIG_batch_size store).length ∧
    (sync_all_pending cfg env store).success_count =
      (succFlags cfg env 0 (get_unsynced_submissions CONFIG_batch_size store)).count true ∧
    (sync_all_pending cfg env store).itemEvents.length =
      (get_unsynced_submissions CONFIG_batch_size store).length ∧
    ∀ s ∈ (sync_all_pending cfg env store).store,
      s.id = ((get_unsynced_submissions CONFIG_batch_size store).get ⟨i, hi⟩).id →
        s.synced_to_cloud = false := by
  have hbne : get_unsynced_submissions CONFIG_batch_size store ≠ [] := by
    intro h0
    rw [h0] at hi
    simp at hi
  rw [sync_all_pending_run cfg env store hnet hen hbne]
  refine ⟨rfl, processBatch_success cfg env _ 0 store,
    processBatch_events_length cfg env _ 0 store, ?_⟩
  intro s hs hsid
  rw [show (⟨(processBatch cfg env 0 store (get_unsynced_submissions CONFIG_batch_size store)).1,
      _, _, _, _, _, _, _⟩ : CycleResult).store =
      (processBatch cfg env 0 store (get_unsynced_submissions CONFIG_batch_size store)).1
    from rfl, processBatch_store cfg env _ 0 store] at hs
  obtain ⟨s0, hs0mem, hs0eq⟩ := List.mem_map.mp hs
  have htmem : (get_unsynced_submissions CONFIG_batch_size store).get ⟨i, hi⟩ ∈
      get_unsynced_submissions CONFIG_batch_size store :=
    List.get_mem _ i hi
  have htstore := mem_get_unsynced htmem
  have hbnd : ((get_unsynced_submissions CONFIG_batch_size store).map Submission.id).Nodup :=
    get_unsynced_ids_nodup CONFIG_batch_size hnds
  have hnotin : ((get_unsynced_submissions CONFIG_batch_size store).get ⟨i, hi⟩).id ∉
      markedIds cfg env 0 (get_unsynced_submissions CONFIG_batch_size store) := by
    intro hmem
    obtain ⟨j, hj, hjid, hjfl, _⟩ := mem_markedIds cfg env _ 0 _ hmem
    have hlen : ((get_unsynced_submissions CONFIG_batch_size store).map Submission.id).length =
        (get_unsynced_submissions CONFIG_batch_size store).length :=
      List.length_map _ _
    have hj' : j < ((get_unsynced_submissions CONFIG_batch_size store).map Submission.id).length := by
      rw [hlen]; exact hj
    have hi' : i < ((get_unsynced_submissions CONFIG_batch_size store).map Submission.id).length := by
      rw [hlen]; exact hi
    have e1 : ((get_unsynced_submissions CONFIG_batch_size store).map Submission.id).get ⟨j, hj'⟩ =
        ((get_unsynced_submissions CONFIG_batch_size store).map Submission.id).get ⟨i, hi'⟩ := by
      rw [List.get_map, List.get_map]
      exact hjid
    have e2 := (hbnd.get_inj_iff.mp e1)
    have hji : j = i := congrArg Fin.val e2
    subst hji
    rw [Nat.zero_add] at hjfl
    exact Bool.false_ne_true (hfail.symm.trans hjfl)
  by_cases hin : s0.id ∈ markedIds cfg env 0 (get_unsynced_submissions CONFIG_batch_size store)
  · exfalso
    have hids : s.id = s0.id := by
      rw [← hs0eq]
      exact updateIfIn_id _ _ _
    apply hnotin
    rw [← hsid, hids]
    exact hin
  · have hseq : s = s0 := by
      rw [← hs0eq]
      unfold updateIfIn
      rw [if_neg hin]
    have hs0id : s0.id = ((get_unsynced_submissions CONFIG_batch_size store).get ⟨i, hi⟩).id := by
      rw [← hseq]
      exact hsid
    have : s0 = (get_unsynced_submissions CONFIG_batch_size store).get ⟨i, hi⟩ :=
      List.inj_on_of_nodup_map hnds hs0mem htstore.1 hs0id
    rw [hseq, this]
    exact htstore.2

/-- Claim C6, witness: a batch of 10 where position 3 is rejected on every
attempt and the other nine deliver — the cycle completes the batch with 9
successes out of 10. -/
theorem C6_witness :
    (sync_all_pending cfgOn envOneReject storeTen).total_count = 10 ∧
    (sync_all_pending cfgOn envOneReject storeTen).success_count = 9 :=
  have h := C6_failure_isolated cfgOn envOneReject storeTen 3 rfl rfl
    (by decide) (by decide) (by decide)
  ⟨h.1.trans (by decide), h.2.1.trans (by decide)⟩

/-- Claim C9, counterexample.  The cycle's entry point does not report the pair
`(success_count, total_count)` to its caller: two cycles with different pairs —
(1 of 2) and (0 of 1) — return the identical value, because the source returns
only the boolean `success_count == total_count` and merely logs the counts. -/
theorem C9_counterexample :
    ((sync_all_pending cfgOn envC9a storeTwo).success_count,
        (sync_all_pending cfgOn envC9a storeTwo).total_count) ≠
      ((sync_all_pending cfgOn envReject storeOne).success_count,
        (sync_all_pending cfgOn envReject storeOne).total_count) ∧
    (sync_all_pending cfgOn envC9a storeTwo).retVal =
      (sync_all_pending cfgOn envReject storeOne).retVal := by decide

/-- Claim C9, amended.  The cycle computes `success_count` (the number of
delivered items) and `total_count` (the number of selected items) and logs
them, but reports to the caller only their comparison: the return value is
`True` exactly when every selected item succeeded. -/
theorem C9_returns_all_succeeded (cfg : SyncConfig) (env : Env)
    (store : List Submission)
    (hnet : env.network_ok = true) (hen : cfg.sync_enabled = true)
    (hne : get_unsynced_submissions CONFIG_batch_size store ≠ []) :
    (sync_all_pending cfg env store).total_count =
      (get_unsynced_submissions CONFIG_batch_size store).length ∧
    (sync_all_pending cfg env store).success_count =
      (succFlags cfg env 0 (get_unsynced_submissions CONFIG_batch_size store)).count true ∧
    ((sync_all_pending cfg env store).retVal = true ↔
      (sync_all_pending cfg env store).success_count =
        (sync_all_pending cfg env store).total_count) := by
  rw [sync_all_pending_run cfg env store hnet hen hne]
  refine ⟨rfl, processBatch_success cfg env _ 0 store, ?_⟩
  simp only [beq_iff_eq]

/-- Claim C9, witness for the amended theorem: one delivery and one rejection —
counts (1, 2), return value `False` (`1 ≠ 2`). -/
theorem C9_witness :
    (sync_all_pending cfgOn envC9a storeTwo).total_count = 2 ∧
    (sync_all_pending cfgOn envC9a storeTwo).success_count = 1 ∧
    ((sync_all_pending cfgOn envC9a storeTwo).retVal = true ↔
      (sync_all_pending cfgOn envC9a storeTwo).success_count =
        (sync_all_pending cfgOn envC9a storeTwo).total_count) :=
  have h := C9_returns_all_succeeded cfgOn envC9a storeTwo rfl rfl (by decide)
  ⟨h.1.trans (by decide), h.2.1.trans (by decide), h.2.2⟩

/-- Claim C10, confirmed.  If an item is acknowledged by the remote
(`sync_to_cloud` returns `True`) but the `mark_as_synced` store write fails
(caught and only logged), the item is still counted — `success_count` counts
exactly the delivered items, so it is positive — while every row with the
item's id remains unsynced, hence eligible for re-delivery in a later cycle. -/
theorem C10_mark_failure_swallowed (cfg : SyncConfig) (env : Env)
    (store : List Submission) (i : Nat)
    (hnet : env.network_ok = true) (hen : cfg.sync_enabled = true)
    (hnds : (store.map Submission.id).Nodup)
    (hi : i < (get_unsynced_submissions CONFIG_batch_size store).length)
    (hdeliv : (sync_to_cloud cfg env.hostname (env.delivery i) env.now
      ((get_unsynced_submissions CONFIG_batch_size store).get ⟨i, hi⟩)).1 = true)
    (hmf : env.markFail i = true) :
    0 < (sync_all_pending cfg env store).success_count ∧
    (sync_all_pending cfg env store).success_count =
      (succFlags cfg env 0 (get_unsynced_submissions CONFIG_batch_size store)).count true ∧
    ∀ s ∈ (sync_all_pending cfg env store).store,
      s.id = ((get_unsynced_submissions CONFIG_batch_size store).get ⟨i, hi⟩).id →
        s.synced_to_cloud = false := by
  have hbne : get_unsynced_submissions CONFIG_batch_size store ≠ [] := by
    intro h0
    rw [h0] at hi
    simp at hi
  rw [sync_all_pending_run cfg env store hnet hen hbne]
  have hdeliv0 : (sync_to_cloud cfg env.hostname (env.delivery (0 + i)) env.now
      ((get_unsynced_submissions CONFIG_batch_size store).get ⟨i, hi⟩)).1 = true := by
    rw [Nat.zero_add]
    exact hdeliv
  have hpos : 0 < (succFlags cfg env 0
      (get_unsynced_submissions CONFIG_batch_size store)).count true :=
    List.count_pos_iff.mpr
      (succFlags_true_mem cfg env _ 0 i hi hdeliv0)
  refine ⟨by simpa [processBatch_success cfg env _ 0 store] using hpos,
    processBatch_success cfg env _ 0 store, ?_⟩
  intro s hs hsid
  rw [show (⟨(processBatch cfg env 0 store (get_unsynced_submissions CONFIG_batch_size store)).1,
      _, _, _, _, _, _, _⟩ : CycleResult).store =
      (processBatch cfg env 0 store (get_unsynced_submissions CONFIG_batch_size store)).1
    from rfl, processBatch_store cfg env _ 0 store] at hs
  obtain ⟨s0, hs0mem, hs0eq⟩ := List.mem_map.mp hs
  have htmem : (get_unsynced_submissions CONFIG_batch_size store).get ⟨i, hi⟩ ∈
      get_unsynced_submissions CONFIG_batch_size store :=
    List.get_mem _ i hi
  have htstore := mem_get_unsynced htmem
  have hbnd : ((get_unsynced_submissions CONFIG_batch_size store).map Submission.id).Nodup :=
    get_unsynced_ids_nodup CONFIG_batch_size hnds
  have hnotin : ((get_unsynced_submissions CONFIG_batch_size store).get ⟨i, hi⟩).id ∉
      markedIds cfg env 0 (get_unsynced_submissions CONFIG_batch_size store) := by
    intro hmem
    obtain ⟨j, hj, hjid, _, hjmf⟩ := mem_markedIds cfg env _ 0 _ hmem
    have hlen : ((get_unsynced_submissions CONFIG_batch_size store).map Submission.id).length =
        (get_unsynced_submissions CONFIG_batch_size store).length :=
      List.length_map _ _
    have hj' : j < ((get_unsynced_submissions CONFIG_batch_size store).map Submission.id).length := by
      rw [hlen]; exact hj
    have hi' : i < ((get_unsynced_submissions CONFIG_batch_size store).map Submission.id).length := by
      rw [hlen]; exact hi
    have e1 : ((get_unsynced_submissions CONFIG_batch_size store).map Submission.id).get ⟨j, hj'⟩ =
        ((get_unsynced_submissions CONFIG_batch_size store).map Submission.id).get ⟨i, hi'⟩ := by
      rw [List.get_map, List.get_map]
      exact hjid
    have e2 := hbnd.get_inj_iff.mp e1
    have hji : j = i := congrArg Fin.val e2
    subst hji
    rw [Nat.zero_add] at hjmf
    exact Bool.false_ne_true (hjmf.symm.trans hmf)
  by_cases hin : s0.id ∈ markedIds cfg env 0 (get_unsynced_submissions CONFIG_batch_size store)
  · exfalso
    have hids : s.id = s0.id := by
      rw [← hs0eq]
      exact updateIfIn_id _ _ _
    apply hnotin
    rw [← hsid, hids]
    exact hin
  · have hseq : s = s0 := by
      rw [← hs0eq]
      unfold updateIfIn
      rw [if_neg hin]
    have hs0id : s0.id = ((get_unsynced_submissions CONFIG_batch_size store).get ⟨i, hi⟩).id := by
      rw [← hseq]
      exact hsid
    have : s0 = (get_unsynced_submissions CONFIG_batch_size store).get ⟨i, hi⟩ :=
      List.inj_on_of_nodup_map hnds hs0mem htstore.1 hs0id
    rw [hseq, this]
    exact htstore.2

/-- Claim C10, witness: both items delivered, but the store write for position 0
fails — `success_count` is still 2 and the first submission stays unsynced. -/
theorem C10_witness :
    0 < (sync_all_pending cfgOn envMarkFail storeTwo).success_count ∧
    (sync_all_pending cfgOn envMarkFail storeTwo).success_count = 2 :=
  have h := C10_mark_failure_swallowed cfgOn envMarkFail storeTwo 0 rfl rfl
    (by decide) (by decide) (by decide) rfl
  ⟨h.1, h.2.1.trans (by decide)⟩
